import Mathlib

/-!
Verification development for the `ai-floor-analysis` repository.

We shallowly embed the request-orchestration layer (`ApiService` in
`src/services/api.service.ts`), the analysis pipeline
(`AiAnalyzerService` in `src/services/ai-analyzer.service.ts`), the chat
prompt construction (`AiChatService` in `src/services/ai-chat.service.ts`),
the analyze route handler and the TTS route's `getAudioBuffer`
(`src/app/api/...`).

External effects (fetch, the OpenAI client, `JSON.parse` of provider
content) are modelled as oracles passed in as function arguments: an
oracle maps the attempt number to the observable outcome of that attempt.
Deterministic code is translated directly.  JavaScript numbers are
modelled as `Rat` (the code only compares them, never does arithmetic on
them, so float rounding is irrelevant to every claim considered here).
-/

/-- Model of a JavaScript value produced by `JSON.parse`.
Objects are field lists; `JSON.parse` collapses duplicate keys, so all
concrete objects we instantiate have pairwise distinct keys. -/
inductive Json where
  | null
  | bool (b : Bool)
  | num (q : Rat)
  | str (s : String)
  | arr (elems : List Json)
  | obj (fields : List (String × Json))

/-- Property access `j.k` on a parsed JSON value: defined (`some`) exactly
when `j` is an object with field `k`; otherwise JavaScript yields
`undefined`, modelled as `none`. -/
def Json.get (j : Json) (k : String) : Option Json :=
  match j with
  | .obj fields => fields.lookup k
  | _ => none

/-- JavaScript truthiness of a possibly-`undefined` value
(`undefined`, `null`, `false`, `0`, `""` are falsy). -/
def jsTruthy : Option Json → Bool
  | none => false
  | some .null => false
  | some (.bool b) => b
  | some (.num q) => decide (q ≠ 0)
  | some (.str s) => decide (s ≠ "")
  | some (.arr _) => true
  | some (.obj _) => true

/-- Model of `Object.values(v)` for the values that can reach it in the analyzer
(a truthy parsed-JSON value): object field values, array elements, the
one-character strings of a string, and `[]` for other primitives. -/
def jsObjectValues : Json → List Json
  | .obj fields => fields.map (·.2)
  | .arr elems => elems
  | .str s => s.data.map (fun c => .str (String.singleton c))
  | _ => []

/-- Model of `analysis.scores[k]`: the score stored at key `k` of the `scores`
field of a parsed analysis value. -/
def scoreAt (analysis : Json) (k : String) : Option Json :=
  match analysis.get "scores" with
  | some s => s.get k
  | none => none

namespace ApiService

/-- The part of a `File` that `ApiService.validateFile` inspects. -/
structure FileInfo where
  type : String
  size : Nat
deriving DecidableEq

/-- Model of `const MAX_FILE_SIZE = 5 * 1024 * 1024` in `validateFile`. -/
def MAX_FILE_SIZE : Nat := 5 * 1024 * 1024

/-- Model of `const ALLOWED_FILE_TYPES = ["image/jpeg", "image/png", "image/webp"]`. -/
def ALLOWED_FILE_TYPES : List String := ["image/jpeg", "image/png", "image/webp"]

/-- Model of `ApiService.validateFile`: `some message` models the thrown `Error`,
`none` models passing validation.  The `!file` guard of the source cannot
fire here because a `FileInfo` is always present. -/
def validateFile (file : FileInfo) : Option String :=
  if ¬ ALLOWED_FILE_TYPES.contains file.type then
    some "Unsupported file type. Please upload JPEG, PNG or WebP"
  else if file.size > MAX_FILE_SIZE then
    some "File is too large. Maximum size is 5MB"
  else
    none

/-- A JavaScript error reaching one of the `catch` blocks of `ApiService`:
an `ApiError` (carrying a status), the `AbortError` raised by the abort
signal when the timeout fires, or any other plain `Error`. -/
inductive JsError where
  | api (message : String) (status : Nat)
  | abortError
  | plain (message : String)
deriving DecidableEq

/-- Model of `const retryableStatuses = [408, 429, 500, 502, 503, 504]`. -/
def retryableStatuses : List Nat := [408, 429, 500, 502, 503, 504]

/-- Model of `ApiService.shouldRetry`: true exactly for an `ApiError` whose status
is retryable (an `AbortError` or plain `Error` is not an `ApiError`). -/
def shouldRetry : JsError → Bool
  | .api _ status => retryableStatuses.contains status
  | .abortError => false
  | .plain _ => false

/-- The error each `catch` block rethrows when it does not retry: an
`AbortError` becomes `Error("Request timeout")`; `normalizeError` returns
every other `Error` unchanged. -/
def propagate : JsError → JsError
  | .abortError => .plain "Request timeout"
  | e => e

/-- Observable outcome of one `fetch` attempt, as seen by the `try` block:
`ok` = response ok and payload extracted; `httpError errField status` =
`!response.ok` with the parsed body's `error` field (`ApiError` thrown);
`abort` = the abort signal fired (`AbortError`); `thrown msg` = any other
`Error` thrown while fetching or parsing the body. -/
inductive FetchOutcome (α : Type) where
  | ok (payload : α)
  | httpError (errField : Option String) (status : Nat)
  | abort
  | thrown (message : String)

/-- The `try` block of `analyzeImage` after validation: on `!response.ok`
throws `ApiError(data.error || "Failed to analyze image", status)`; on a
missing `data.parsedAnalysis` throws `Error("Invalid response format")`. -/
def analyzeAttemptBody {α : Type} : FetchOutcome (Option α) → Except JsError α
  | .ok (some payload) => .ok payload
  | .ok none => .error (.plain "Invalid response format")
  | .httpError errField status =>
      .error (.api (errField.getD "Failed to analyze image") status)
  | .abort => .error .abortError
  | .thrown msg => .error (.plain msg)

/-- The `try` block of `generateSpeech`: on `!response.ok` throws
`ApiError("Failed to generate speech", status)` (the body is not read). -/
def speechAttemptBody {α : Type} : FetchOutcome α → Except JsError α
  | .ok payload => .ok payload
  | .httpError _ status => .error (.api "Failed to generate speech" status)
  | .abort => .error .abortError
  | .thrown msg => .error (.plain msg)

/-- The `try` block of `sendChatMessage`: on `!response.ok` throws
`ApiError(data.error || "Failed to send chat message", status)`;
on success returns `data.text`. -/
def chatAttemptBody {α : Type} : FetchOutcome α → Except JsError α
  | .ok payload => .ok payload
  | .httpError errField status =>
      .error (.api (errField.getD "Failed to send chat message") status)
  | .abort => .error .abortError
  | .thrown msg => .error (.plain msg)

/-- Observable run of one `ApiService` operation: the final result (the
value returned or the error finally thrown), the number of `fetch`
attempts issued, and the waits performed by `this.delay`, in order. -/
structure ApiRun (α : Type) where
  result : Except JsError α
  fetches : Nat
  delays : List Nat

/-- Model of `ApiService.analyzeImage(file, retryCount)` run against an oracle
`att` giving the outcome of each fetch attempt.  Mirrors the source:
`validateFile` throws inside the `try` (plain error, so never retried and
no fetch is made); an `AbortError` becomes `Error("Request timeout")`
before the retry test; retry when `shouldRetry(error) && retryCount <
maxRetries` after `delay(1000 * (retryCount + 1))`; otherwise the
normalized error is thrown. -/
def analyzeImage {α : Type} (maxRetries : Nat) (att : Nat → FetchOutcome (Option α))
    (file : FileInfo) (retryCount : Nat) : ApiRun α :=
  match validateFile file with
  | some msg => ⟨.error (.plain msg), 0, []⟩
  | none =>
    match analyzeAttemptBody (att retryCount) with
    | .ok payload => ⟨.ok payload, 1, []⟩
    | .error .abortError => ⟨.error (.plain "Request timeout"), 1, []⟩
    | .error e =>
      if h : shouldRetry e = true ∧ retryCount < maxRetries then
        let rest := analyzeImage maxRetries att file (retryCount + 1)
        ⟨rest.result, rest.fetches + 1, 1000 * (retryCount + 1) :: rest.delays⟩
      else
        ⟨.error (propagate e), 1, []⟩
termination_by maxRetries - retryCount
decreasing_by omega

/-- Model of `ApiService.generateSpeech(text, retryCount)` run against an oracle;
identical `catch` structure to `analyzeImage`, no validation step. -/
def generateSpeech {α : Type} (maxRetries : Nat) (att : Nat → FetchOutcome α)
    (retryCount : Nat) : ApiRun α :=
  match speechAttemptBody (att retryCount) with
  | .ok payload => ⟨.ok payload, 1, []⟩
  | .error .abortError => ⟨.error (.plain "Request timeout"), 1, []⟩
  | .error e =>
    if h : shouldRetry e = true ∧ retryCount < maxRetries then
      let rest := generateSpeech maxRetries att (retryCount + 1)
      ⟨rest.result, rest.fetches + 1, 1000 * (retryCount + 1) :: rest.delays⟩
    else
      ⟨.error (propagate e), 1, []⟩
termination_by maxRetries - retryCount
decreasing_by omega

/-- Model of `ApiService.sendChatMessage(message, context, retryCount)` run against
an oracle; identical `catch` structure to `analyzeImage`. -/
def sendChatMessage {α : Type} (maxRetries : Nat) (att : Nat → FetchOutcome α)
    (retryCount : Nat) : ApiRun α :=
  match chatAttemptBody (att retryCount) with
  | .ok payload => ⟨.ok payload, 1, []⟩
  | .error .abortError => ⟨.error (.plain "Request timeout"), 1, []⟩
  | .error e =>
    if h : shouldRetry e = true ∧ retryCount < maxRetries then
      let rest := sendChatMessage maxRetries att (retryCount + 1)
      ⟨rest.result, rest.fetches + 1, 1000 * (retryCount + 1) :: rest.delays⟩
    else
      ⟨.error (propagate e), 1, []⟩
termination_by maxRetries - retryCount
decreasing_by omega

/-- Model of `arr.slice(-5)` of JavaScript: the last `min 5 (length)` elements.
`Array.prototype.slice(-k)` starts at `max(length - k, 0)`, which is
truncated subtraction on `Nat`. -/
def jsSliceLast {α : Type} (k : Nat) (xs : List α) : List α :=
  xs.drop (xs.length - k)

/-- The JSON request body `sendChatMessage` posts to `/chat`. -/
structure ChatRequestBody (A M : Type) where
  message : String
  analysis : A
  previousMessages : List M

/-- The body built inside `sendChatMessage`:
`{ message, context: { analysis, previousMessages: prev.slice(-5) } }`. -/
def sendChatMessageBody {A M : Type} (message : String) (analysis : A)
    (previousMessages : List M) : ChatRequestBody A M :=
  ⟨message, analysis, jsSliceLast 5 previousMessages⟩

end ApiService

namespace AiAnalyzerService

/-- Model of `private readonly MAX_RETRIES = 2`. -/
def MAX_RETRIES : Nat := 2

/-- Model of `private readonly RETRY_DELAY = 500`. -/
def RETRY_DELAY : Nat := 500

/-- An error reaching the `catch` of `AiAnalyzerService.analyzeImage`:
an `OpenAI.APIError` (carrying its HTTP status) or any other `Error`
(the ones thrown by the response checks of the `try` block). -/
inductive AnalyzerError where
  | apiError (status : Nat) (message : String)
  | plain (message : String)
deriving DecidableEq

/-- Model of `AiAnalyzerService.shouldRetry`: an `OpenAI.APIError` with status 429
or 500; anything else is not retried. -/
def shouldRetry : AnalyzerError → Bool
  | .apiError status _ => decide (status = 429) || decide (status = 500)
  | .plain _ => false

/-- One element of `response.choices`.  `content : Option String` models
`message.content : string | null`. -/
structure Choice where
  finishReason : Option String
  content : Option String

/-- Outcome of one `openai.chat.completions.create` call: the promise
rejects with an `OpenAI.APIError`, rejects with some other error, or
resolves with a choice list (an absent `choices` field is the empty
list, which the source treats identically). -/
inductive ProviderOutcome where
  | throwApi (status : Nat) (message : String)
  | throwOther (message : String)
  | reply (choices : List Choice)

/-- Model of `AiAnalyzerService.areaScoreValid(scores)`:
`Object.values(scores).every(s => typeof s === "number" && s >= 0 && s <= 100)`.
Only a JSON number passes the `typeof` test. -/
def areaScoreValid (scores : Json) : Bool :=
  (jsObjectValues scores).all fun v =>
    match v with
    | .num q => decide (0 ≤ q) && decide (q ≤ 100)
    | _ => false

/-- The `try` block of `AiAnalyzerService.analyzeImage` for one provider
call.  `parse` models `JSON.parse` on the content string (`none` = the
parse throws).  The checks appear in source order: empty `choices`,
`finish_reason === "length"`, `finish_reason === "content_filter"`,
falsy `content` (null or `""`), JSON parse, falsy
`parsedAnalysis.scores` or `parsedAnalysis.recommendations`, and
`areaScoreValid` on `parsedAnalysis.scores`. -/
def analyzeAttempt (parse : String → Option Json) :
    ProviderOutcome → Except AnalyzerError Json
  | .throwApi status msg => .error (.apiError status msg)
  | .throwOther msg => .error (.plain msg)
  | .reply choices =>
    match choices with
    | [] => .error (.plain "No response received from OpenAI")
    | choice :: _ =>
      if choice.finishReason = some "length" then
        .error (.plain "The response is too long. Please try again.")
      else if choice.finishReason = some "content_filter" then
        .error (.plain "The response was filtered due to content restrictions")
      else
        match choice.content with
        | none => .error (.plain "Empty response received")
        | some content =>
          if content = "" then .error (.plain "Empty response received")
          else
            match parse content with
            | none => .error (.plain "Invalid JSON response received")
            | some parsedAnalysis =>
              if ¬ (jsTruthy (parsedAnalysis.get "scores")
                    ∧ jsTruthy (parsedAnalysis.get "recommendations")) then
                .error (.plain "Invalid JSON structure")
              else
                match parsedAnalysis.get "scores" with
                | none => .error (.plain "Invalid JSON structure")
                | some scores =>
                  if ¬ areaScoreValid scores then
                    .error (.plain "Scores are outside valid range (0-100)")
                  else
                    .ok parsedAnalysis

/-- Model of `AiAnalyzerService.emptyResponse()`: the all-zero sentinel analysis. -/
def emptyResponse : Json :=
  .obj [("scores", .obj [("lighting", .num 0), ("space", .num 0),
          ("flow", .num 0), ("accessibility", .num 0)]),
        ("recommendations", .arr [])]

/-- Observable run of `AiAnalyzerService.analyzeImage`: the value
returned (the method never throws), the number of provider calls, and
the waits performed by `this.delay`, in order. -/
structure AnalyzerRun where
  result : Json
  attempts : Nat
  delays : List Nat

/-- Model of `AiAnalyzerService.analyzeImage(imageUrl, retryCount)` run against an
oracle `att` giving each provider call's outcome.  On an error: retry
when `retryCount < MAX_RETRIES && shouldRetry(error)` after
`delay(RETRY_DELAY * (retryCount + 1))`; otherwise log and
`return emptyResponse()`. -/
def analyzeImage (parse : String → Option Json) (att : Nat → ProviderOutcome)
    (retryCount : Nat) : AnalyzerRun :=
  match analyzeAttempt parse (att retryCount) with
  | .ok parsedAnalysis => ⟨parsedAnalysis, 1, []⟩
  | .error e =>
    if h : retryCount < MAX_RETRIES ∧ shouldRetry e = true then
      let rest := analyzeImage parse att (retryCount + 1)
      ⟨rest.result, rest.attempts + 1, RETRY_DELAY * (retryCount + 1) :: rest.delays⟩
    else
      ⟨emptyResponse, 1, []⟩
termination_by MAX_RETRIES - retryCount
decreasing_by omega

end AiAnalyzerService

/-- Indentation string of `n` spaces used by the `JSON.stringify` model. -/
def jsonIndent (n : Nat) : String :=
  String.mk (List.replicate n ' ')

/-- Rendering of a JSON number.  Integer values print as in JavaScript;
non-integer values are given an abstract printed form (`num/den`), which
is adequate here because every claim compares against this same model
rather than against a literal provider string. -/
def renderNum (q : Rat) : String :=
  if q.den = 1 then toString q.num else toString q.num ++ "/" ++ toString q.den

/-- Escaping of one character inside a JSON string literal (the escapes
that can occur in the data of this repository). -/
def escapeChar (c : Char) : String :=
  if c = '"' then "\\\""
  else if c = '\\' then "\\\\"
  else if c = '\n' then "\\n"
  else if c = '\t' then "\\t"
  else if c = '\r' then "\\r"
  else String.singleton c

/-- Rendering of a JSON string literal with quotes and escapes. -/
def quoteStr (s : String) : String :=
  "\"" ++ String.join (s.data.map escapeChar) ++ "\""

mutual

/-- Model of `JSON.stringify(v, null, 2)` at nesting depth `d`: children are
indented by `2 * (d + 1)` spaces and the closing bracket by `2 * d`. -/
def renderJson (d : Nat) : Json → String
  | .null => "null"
  | .bool b => if b then "true" else "false"
  | .num q => renderNum q
  | .str s => quoteStr s
  | .arr [] => "[]"
  | .arr (x :: xs) =>
      "[\n" ++ renderElems (d + 1) x xs ++ "\n" ++ jsonIndent (2 * d) ++ "]"
  | .obj [] => "\x7b\x7d"
  | .obj ((k, v) :: fs) =>
      "\x7b\n" ++ renderFields (d + 1) k v fs ++ "\n" ++ jsonIndent (2 * d) ++ "\x7d"
termination_by j => sizeOf j

/-- Comma-and-newline separated array elements at depth `d`. -/
def renderElems (d : Nat) (x : Json) (xs : List Json) : String :=
  match xs with
  | [] => jsonIndent (2 * d) ++ renderJson d x
  | y :: ys => jsonIndent (2 * d) ++ renderJson d x ++ ",\n" ++ renderElems d y ys
termination_by 1 + sizeOf x + sizeOf xs

/-- Comma-and-newline separated object fields at depth `d`. -/
def renderFields (d : Nat) (k : String) (v : Json)
    (fs : List (String × Json)) : String :=
  match fs with
  | [] => jsonIndent (2 * d) ++ quoteStr k ++ ": " ++ renderJson d v
  | (k2, v2) :: gs =>
      jsonIndent (2 * d) ++ quoteStr k ++ ": " ++ renderJson d v ++ ",\n" ++
        renderFields d k2 v2 gs
termination_by 1 + sizeOf v + sizeOf fs

end

/-- Model of `JSON.stringify(analysis, null, 2)`. -/
def jsonStringify2 (j : Json) : String :=
  renderJson 0 j

namespace AiChatService

/-- Sender field of the chat-service `ChatMessage` interface. -/
inductive Sender where
  | user
  | assistant
deriving DecidableEq

/-- The `ChatMessage` interface of `ai-chat.service.ts`. -/
structure ChatMessage where
  sender : Sender
  text : String

/-- Role of a provider chat-completion message. -/
inductive Role where
  | system
  | user
  | assistant
deriving DecidableEq

/-- One message of the provider request built by `generateResponse`. -/
structure ProviderMessage where
  role : Role
  content : String

/-- Text of `createSystemPrompt` before the interpolated
`JSON.stringify(analysis, null, 2)`. -/
def systemPromptPre : String :=
  "You are an expert in analyzing floor plans, analyzing the following plan:\n\n    Floor plan analysis:\n    "

/-- Text of `createSystemPrompt` after the interpolated analysis. -/
def systemPromptPost : String :=
  "\n\n    Answer the user\x27s questions ONLY in the context of this plan and the provided analysis.\n    If the question is not related to the plan or analysis, politely redirect the conversation back to the plan topic.\n    \n    Use specific data from the analysis in your answers:\n    - Refer to specific assessments (lighting, space, etc.)\n    - Mention specific recommendations for rooms\n    - Give practical advice based on the analysis"

/-- Model of `AiChatService.createSystemPrompt(analysis)`: the fixed prompt text
with `JSON.stringify(analysis, null, 2)` interpolated. -/
def createSystemPrompt (analysis : Json) : String :=
  systemPromptPre ++ jsonStringify2 analysis ++ systemPromptPost

/-- Model of `AiChatService.formatPreviousMessages`: maps each history message
to a provider message, `"user"` sender to the user role and any other
sender to the assistant role. -/
def formatPreviousMessages (messages : List ChatMessage) : List ProviderMessage :=
  messages.map fun msg =>
    ⟨match msg.sender with
      | .user => Role.user
      | .assistant => Role.assistant,
     msg.text⟩

/-- The `messages` array of the provider request built by
`AiChatService.generateResponse`: the system prompt, then the formatted
history, then the user message. -/
def generateResponseMessages (analysis : Json) (message : String)
    (previousMessages : List ChatMessage) : List ProviderMessage :=
  ⟨Role.system, createSystemPrompt analysis⟩ ::
    (formatPreviousMessages previousMessages ++ [⟨Role.user, message⟩])

end AiChatService

namespace TtsRoute

/-- Model of `Uint8Array.prototype.set(chunk, offset)` on a buffer, in the
in-bounds case used by `getAudioBuffer` (offset + chunk length never
exceeds the buffer length there). -/
def uint8ArraySet (buf chunk : List Nat) (offset : Nat) : List Nat :=
  buf.take offset ++ chunk ++ buf.drop (offset + chunk.length)

/-- Model of `getAudioBuffer(stream)` of the TTS route, applied to the list of
chunks the stream yields before `done`: allocate a zero-filled buffer of
the summed length (`chunks.reduce((acc, c) => acc + c.length, 0)`), then
copy each chunk at the running offset. -/
def getAudioBuffer (chunks : List (List Nat)) : List Nat :=
  let total := chunks.foldl (fun acc chunk => acc + chunk.length) 0
  let concatenated := List.replicate total 0
  (chunks.foldl
    (fun (st : List Nat × Nat) chunk =>
      (uint8ArraySet st.1 chunk st.2, st.2 + chunk.length))
    (concatenated, 0)).1

end TtsRoute

/-- Model of `s.includes(t)` on a character list: `t` occurs contiguously. -/
def listIncludes (t : List Char) : List Char → Bool
  | [] => t.isPrefixOf []
  | c :: rest => t.isPrefixOf (c :: rest) || listIncludes t rest

/-- Model of `s.includes(t)` of JavaScript strings. -/
def jsIncludes (s t : String) : Bool :=
  listIncludes t.data s.data

namespace AnalyzeRoute

/-- Route-side `const MAX_FILE_SIZE = 5 * 1024 * 1024`. -/
def MAX_FILE_SIZE : Nat := 5 * 1024 * 1024

/-- Route-side `const ALLOWED_FILE_TYPES = ["image/jpeg", "image/png", "image/webp"]`. -/
def ALLOWED_FILE_TYPES : List String := ["image/jpeg", "image/png", "image/webp"]

/-- Response of the analyze route: HTTP status, the `error` field of the
JSON body if present, the `parsedAnalysis` field if present, and whether
`aiAnalyzerService.analyzeImage` was invoked. -/
structure RouteResult where
  status : Nat
  error : Option String
  parsedAnalysis : Option Json
  analyzerCalled : Bool

/-- Model of the `POST` handler of the analyze route.  `isMultipart` models
`req.headers.get("Content-Type")?.includes("multipart/form-data")`;
`file` models `formData.get("file")` (`none` = absent); `runAnalyzer`
models the awaited `aiAnalyzerService.analyzeImage` (exceptions as
`Except.error`); `isDev` models `process.env.NODE_ENV === "development"`.
The guards appear in source order. -/
def POST (isMultipart : Bool) (file : Option ApiService.FileInfo)
    (runAnalyzer : ApiService.FileInfo → Except String Json)
    (isDev : Bool) : RouteResult :=
  if ¬ isMultipart then
    ⟨400, some "Content type must be multipart/form-data", none, false⟩
  else
    match file with
    | none => ⟨400, some "No file uploaded", none, false⟩
    | some f =>
      if ¬ ALLOWED_FILE_TYPES.contains f.type then
        ⟨415, some ("File type " ++ f.type ++
              " not supported. Please upload JPEG, PNG or WebP"), none, false⟩
      else if f.size > MAX_FILE_SIZE then
        ⟨413, some "File size too large. Maximum size is 5MB", none, false⟩
      else
        match runAnalyzer f with
        | .ok analysis => ⟨200, none, some analysis, true⟩
        | .error msg =>
            ⟨if jsIncludes msg "Analysis timeout" then 504 else 500,
             some (if isDev then msg
                   else "An error occurred while processing your request"),
             none, true⟩

end AnalyzeRoute

namespace ApiService

/-- Case lemma: a validation failure is thrown before any fetch. -/
lemma analyzeImage_invalid {α : Type} (m : Nat) (att : Nat → FetchOutcome (Option α))
    (file : FileInfo) (r : Nat) (msg : String) (hv : validateFile file = some msg) :
    analyzeImage m att file r = ⟨.error (.plain msg), 0, []⟩ := by
  rw [analyzeImage, hv]

/-- Case lemma: a successful attempt returns at once. -/
lemma analyzeImage_ok {α : Type} (m : Nat) (att : Nat → FetchOutcome (Option α))
    (file : FileInfo) (r : Nat) (p : α) (hv : validateFile file = none)
    (h : analyzeAttemptBody (att r) = .ok p) :
    analyzeImage m att file r = ⟨.ok p, 1, []⟩ := by
  rw [analyzeImage, hv, h]

/-- Case lemma: an aborted attempt throws `Request timeout` at once. -/
lemma analyzeImage_abort {α : Type} (m : Nat) (att : Nat → FetchOutcome (Option α))
    (file : FileInfo) (r : Nat) (hv : validateFile file = none)
    (h : analyzeAttemptBody (att r) = .error .abortError) :
    analyzeImage m att file r = ⟨.error (.plain "Request timeout"), 1, []⟩ := by
  rw [analyzeImage, hv, h]

/-- Case lemma: a retryable failure within budget waits `1000 * (r + 1)`
and re-issues with `retryCount + 1`. -/
lemma analyzeImage_retry {α : Type} (m : Nat) (att : Nat → FetchOutcome (Option α))
    (file : FileInfo) (r : Nat) (e : JsError) (hv : validateFile file = none)
    (h : analyzeAttemptBody (att r) = .error e)
    (hre : shouldRetry e = true) (hr : r < m) :
    analyzeImage m att file r =
      ⟨(analyzeImage m att file (r + 1)).result,
       (analyzeImage m att file (r + 1)).fetches + 1,
       1000 * (r + 1) :: (analyzeImage m att file (r + 1)).delays⟩ := by
  rw [analyzeImage, hv, h]
  cases e with
  | api msg s => simp [hre, hr]
  | abortError => simp [shouldRetry] at hre
  | plain msg => simp [shouldRetry] at hre

/-- Case lemma: a failure that is non-retryable or out of budget is
propagated at once. -/
lemma analyzeImage_stop {α : Type} (m : Nat) (att : Nat → FetchOutcome (Option α))
    (file : FileInfo) (r : Nat) (e : JsError) (hv : validateFile file = none)
    (h : analyzeAttemptBody (att r) = .error e)
    (hstop : ¬ (shouldRetry e = true ∧ r < m)) :
    analyzeImage m att file r = ⟨.error (propagate e), 1, []⟩ := by
  rw [analyzeImage, hv, h]
  cases e with
  | api msg s => simp [dif_neg hstop, propagate]
  | abortError => simp [propagate]
  | plain msg => simp [dif_neg hstop, propagate]

/-- Case lemma for `generateSpeech`: success returns at once. -/
lemma generateSpeech_ok {α : Type} (m : Nat) (att : Nat → FetchOutcome α)
    (r : Nat) (p : α) (h : speechAttemptBody (att r) = .ok p) :
    generateSpeech m att r = ⟨.ok p, 1, []⟩ := by
  rw [generateSpeech, h]

/-- Case lemma for `generateSpeech`: abort throws `Request timeout`. -/
lemma generateSpeech_abort {α : Type} (m : Nat) (att : Nat → FetchOutcome α)
    (r : Nat) (h : speechAttemptBody (att r) = .error .abortError) :
    generateSpeech m att r = ⟨.error (.plain "Request timeout"), 1, []⟩ := by
  rw [generateSpeech, h]

/-- Case lemma for `generateSpeech`: retryable failure within budget. -/
lemma generateSpeech_retry {α : Type} (m : Nat) (att : Nat → FetchOutcome α)
    (r : Nat) (e : JsError) (h : speechAttemptBody (att r) = .error e)
    (hre : shouldRetry e = true) (hr : r < m) :
    generateSpeech m att r =
      ⟨(generateSpeech m att (r + 1)).result,
       (generateSpeech m att (r + 1)).fetches + 1,
       1000 * (r + 1) :: (generateSpeech m att (r + 1)).delays⟩ := by
  rw [generateSpeech, h]
  cases e with
  | api msg s => simp [hre, hr]
  | abortError => simp [shouldRetry] at hre
  | plain msg => simp [shouldRetry] at hre

/-- Case lemma for `generateSpeech`: non-retryable or out-of-budget
failure propagates at once. -/
lemma generateSpeech_stop {α : Type} (m : Nat) (att : Nat → FetchOutcome α)
    (r : Nat) (e : JsError) (h : speechAttemptBody (att r) = .error e)
    (hstop : ¬ (shouldRetry e = true ∧ r < m)) :
    generateSpeech m att r = ⟨.error (propagate e), 1, []⟩ := by
  rw [generateSpeech, h]
  cases e with
  | api msg s => simp [dif_neg hstop, propagate]
  | abortError => simp [propagate]
  | plain msg => simp [dif_neg hstop, propagate]

/-- Case lemma for `sendChatMessage`: success returns at once. -/
lemma sendChatMessage_ok {α : Type} (m : Nat) (att : Nat → FetchOutcome α)
    (r : Nat) (p : α) (h : chatAttemptBody (att r) = .ok p) :
    sendChatMessage m att r = ⟨.ok p, 1, []⟩ := by
  rw [sendChatMessage, h]

/-- Case lemma for `sendChatMessage`: abort throws `Request timeout`. -/
lemma sendChatMessage_abort {α : Type} (m : Nat) (att : Nat → FetchOutcome α)
    (r : Nat) (h : chatAttemptBody (att r) = .error .abortError) :
    sendChatMessage m att r = ⟨.error (.plain "Request timeout"), 1, []⟩ := by
  rw [sendChatMessage, h]

/-- Case lemma for `sendChatMessage`: retryable failure within budget. -/
lemma sendChatMessage_retry {α : Type} (m : Nat) (att : Nat → FetchOutcome α)
    (r : Nat) (e : JsError) (h : chatAttemptBody (att r) = .error e)
    (hre : shouldRetry e = true) (hr : r < m) :
    sendChatMessage m att r =
      ⟨(sendChatMessage m att (r + 1)).result,
       (sendChatMessage m att (r + 1)).fetches + 1,
       1000 * (r + 1) :: (sendChatMessage m att (r + 1)).delays⟩ := by
  rw [sendChatMessage, h]
  cases e with
  | api msg s => simp [hre, hr]
  | abortError => simp [shouldRetry] at hre
  | plain msg => simp [shouldRetry] at hre

/-- Case lemma for `sendChatMessage`: non-retryable or out-of-budget
failure propagates at once. -/
lemma sendChatMessage_stop {α : Type} (m : Nat) (att : Nat → FetchOutcome α)
    (r : Nat) (e : JsError) (h : chatAttemptBody (att r) = .error e)
    (hstop : ¬ (shouldRetry e = true ∧ r < m)) :
    sendChatMessage m att r = ⟨.error (propagate e), 1, []⟩ := by
  rw [sendChatMessage, h]
  cases e with
  | api msg s => simp [dif_neg hstop, propagate]
  | abortError => simp [propagate]
  | plain msg => simp [dif_neg hstop, propagate]

end ApiService

namespace AiAnalyzerService

/-- Case lemma for the analyzer: a passing provider response is returned. -/
lemma aiAnalyzeImage_ok (parse : String → Option Json) (att : Nat → ProviderOutcome)
    (r : Nat) (j : Json) (h : analyzeAttempt parse (att r) = .ok j) :
    analyzeImage parse att r = ⟨j, 1, []⟩ := by
  rw [analyzeImage, h]

/-- Case lemma for the analyzer: a retryable failure within budget waits
`RETRY_DELAY * (r + 1)` and re-issues with `retryCount + 1`. -/
lemma aiAnalyzeImage_retry (parse : String → Option Json) (att : Nat → ProviderOutcome)
    (r : Nat) (e : AnalyzerError) (h : analyzeAttempt parse (att r) = .error e)
    (hr : r < MAX_RETRIES) (hre : shouldRetry e = true) :
    analyzeImage parse att r =
      ⟨(analyzeImage parse att (r + 1)).result,
       (analyzeImage parse att (r + 1)).attempts + 1,
       RETRY_DELAY * (r + 1) :: (analyzeImage parse att (r + 1)).delays⟩ := by
  rw [analyzeImage, h]
  simp [hre, hr]

/-- Case lemma for the analyzer: any other failure degrades to the
sentinel at once. -/
lemma aiAnalyzeImage_stop (parse : String → Option Json) (att : Nat → ProviderOutcome)
    (r : Nat) (e : AnalyzerError) (h : analyzeAttempt parse (att r) = .error e)
    (hstop : ¬ (r < MAX_RETRIES ∧ shouldRetry e = true)) :
    analyzeImage parse att r = ⟨emptyResponse, 1, []⟩ := by
  rw [analyzeImage, h]
  simp [dif_neg hstop]

end AiAnalyzerService

/-- Helper: the running total of `chunks.reduce((acc, c) => acc + c.length, 0)`. -/
lemma foldl_length_eq (chunks : List (List Nat)) (n : Nat) :
    chunks.foldl (fun acc chunk => acc + chunk.length) n
      = n + (chunks.map List.length).sum := by
  induction chunks generalizing n with
  | nil => simp
  | cons c cs ih => simp [ih]; omega

/-- Helper: the copy loop of `getAudioBuffer`, generalized over an already
copied prefix `done` followed by the still-zero-filled remainder. -/
lemma getAudioBuffer_copy_loop (chunks : List (List Nat)) (done : List Nat) :
    (chunks.foldl
      (fun (st : List Nat × Nat) chunk =>
        (TtsRoute.uint8ArraySet st.1 chunk st.2, st.2 + chunk.length))
      (done ++ List.replicate ((chunks.map List.length).sum) 0, done.length))
    = (done ++ chunks.flatten, done.length + (chunks.map List.length).sum) := by
  induction chunks generalizing done with
  | nil => simp
  | cons c cs ih =>
    simp only [List.foldl_cons, List.map_cons, List.sum_cons]
    have htake : (done ++ List.replicate (c.length + (cs.map List.length).sum) 0).take
        done.length = done := List.take_left' rfl
    have hdrop : (done ++ List.replicate (c.length + (cs.map List.length).sum) 0).drop
        (done.length + c.length) = List.replicate ((cs.map List.length).sum) 0 := by
      rw [show done ++ List.replicate (c.length + (cs.map List.length).sum) 0
          = (done ++ List.replicate c.length 0) ++
              List.replicate ((cs.map List.length).sum) 0 by
        rw [List.replicate_add, List.append_assoc]]
      exact List.drop_left' (by simp)
    have hset : TtsRoute.uint8ArraySet
        (done ++ List.replicate (c.length + (cs.map List.length).sum) 0) c done.length
        = (done ++ c) ++ List.replicate ((cs.map List.length).sum) 0 := by
      unfold TtsRoute.uint8ArraySet
      rw [htake, hdrop, List.append_assoc]
    rw [hset]
    rw [show done.length + c.length = (done ++ c).length by simp, ih (done ++ c)]
    simp
    omega

/-- C9: `getAudioBuffer` returns the chunks concatenated in read order,
in a single buffer whose length is the sum of the chunk lengths. -/
theorem c9_getAudioBuffer_concatenates (chunks : List (List Nat)) :
    TtsRoute.getAudioBuffer chunks = chunks.flatten ∧
    (TtsRoute.getAudioBuffer chunks).length = (chunks.map List.length).sum := by
  have h1 : TtsRoute.getAudioBuffer chunks = chunks.flatten := by
    unfold TtsRoute.getAudioBuffer
    rw [foldl_length_eq]
    have h := getAudioBuffer_copy_loop chunks []
    simp only [List.nil_append, List.length_nil, Nat.zero_add] at h
    simp [h]
  exact ⟨h1, by rw [h1]; simp [List.length_flatten]⟩

/-- C7: the request body `sendChatMessage` posts carries the message and
analysis unmodified, and exactly the last `min 5 n` prior messages in
their original order (they form the matching suffix of the input list). -/
theorem c7_sendChatMessage_window {A M : Type} (message : String) (analysis : A)
    (previousMessages : List M) :
    (ApiService.sendChatMessageBody message analysis previousMessages).message = message ∧
    (ApiService.sendChatMessageBody message analysis previousMessages).analysis = analysis ∧
    (ApiService.sendChatMessageBody message analysis previousMessages).previousMessages.length
      = min 5 previousMessages.length ∧
    previousMessages.take (previousMessages.length - 5) ++
        (ApiService.sendChatMessageBody message analysis previousMessages).previousMessages
      = previousMessages := by
  refine ⟨rfl, rfl, ?_, ?_⟩
  · simp [ApiService.sendChatMessageBody, ApiService.jsSliceLast]
    omega
  · simp [ApiService.sendChatMessageBody, ApiService.jsSliceLast]

/-- C8: the provider request of `generateResponse` starts with a system
message whose content contains `JSON.stringify(analysis, null, 2)`
verbatim as a substring, followed by the formatted prior messages and
then the user message. -/
theorem c8_systemPrompt_embeds_analysis (analysis : Json) (message : String)
    (previousMessages : List AiChatService.ChatMessage) :
    ∃ pre post : String,
      AiChatService.generateResponseMessages analysis message previousMessages =
        ⟨AiChatService.Role.system, pre ++ jsonStringify2 analysis ++ post⟩ ::
          (AiChatService.formatPreviousMessages previousMessages ++
            [⟨AiChatService.Role.user, message⟩]) :=
  ⟨AiChatService.systemPromptPre, AiChatService.systemPromptPost, rfl⟩

/-- C1: each `ApiService` operation retries a failed attempt exactly when
the failure is an `ApiError` with status in {408, 429, 500, 502, 503,
504} and fewer than `maxRetries` retries were already made, waiting
`1000 * (retryCount + 1)` ms before the re-issue (1s, 2s, 3s, ...); any
other failure is propagated at once without a retry. -/
theorem c1_transport_retry_policy {α : Type} (maxRetries retryCount : Nat) :
    (∀ e : ApiService.JsError,
      ApiService.shouldRetry e = true ↔
        ∃ msg status, e = .api msg status ∧
          (status = 408 ∨ status = 429 ∨ status = 500 ∨ status = 502 ∨
           status = 503 ∨ status = 504)) ∧
    (∀ (att : Nat → ApiService.FetchOutcome (Option α)) (file : ApiService.FileInfo)
       (e : ApiService.JsError),
      ApiService.validateFile file = none →
      ApiService.analyzeAttemptBody (att retryCount) = .error e →
        (ApiService.shouldRetry e = true ∧ retryCount < maxRetries →
          ApiService.analyzeImage maxRetries att file retryCount =
            ⟨(ApiService.analyzeImage maxRetries att file (retryCount + 1)).result,
             (ApiService.analyzeImage maxRetries att file (retryCount + 1)).fetches + 1,
             1000 * (retryCount + 1) ::
               (ApiService.analyzeImage maxRetries att file (retryCount + 1)).delays⟩) ∧
        (¬ (ApiService.shouldRetry e = true ∧ retryCount < maxRetries) →
          ApiService.analyzeImage maxRetries att file retryCount =
            ⟨.error (ApiService.propagate e), 1, []⟩)) ∧
    (∀ (att : Nat → ApiService.FetchOutcome α) (e : ApiService.JsError),
      ApiService.speechAttemptBody (att retryCount) = .error e →
        (ApiService.shouldRetry e = true ∧ retryCount < maxRetries →
          ApiService.generateSpeech maxRetries att retryCount =
            ⟨(ApiService.generateSpeech maxRetries att (retryCount + 1)).result,
             (ApiService.generateSpeech maxRetries att (retryCount + 1)).fetches + 1,
             1000 * (retryCount + 1) ::
               (ApiService.generateSpeech maxRetries att (retryCount + 1)).delays⟩) ∧
        (¬ (ApiService.shouldRetry e = true ∧ retryCount < maxRetries) →
          ApiService.generateSpeech maxRetries att retryCount =
            ⟨.error (ApiService.propagate e), 1, []⟩)) ∧
    (∀ (att : Nat → ApiService.FetchOutcome α) (e : ApiService.JsError),
      ApiService.chatAttemptBody (att retryCount) = .error e →
        (ApiService.shouldRetry e = true ∧ retryCount < maxRetries →
          ApiService.sendChatMessage maxRetries att retryCount =
            ⟨(ApiService.sendChatMessage maxRetries att (retryCount + 1)).result,
             (ApiService.sendChatMessage maxRetries att (retryCount + 1)).fetches + 1,
             1000 * (retryCount + 1) ::
               (ApiService.sendChatMessage maxRetries att (retryCount + 1)).delays⟩) ∧
        (¬ (ApiService.shouldRetry e = true ∧ retryCount < maxRetries) →
          ApiService.sendChatMessage maxRetries att retryCount =
            ⟨.error (ApiService.propagate e), 1, []⟩)) := by
  refine ⟨?_, ?_, ?_, ?_⟩
  · intro e
    cases e with
    | api msg status =>
        simp only [ApiService.shouldRetry, ApiService.retryableStatuses]
        simp
        constructor
        · intro h
          exact ⟨msg, status, ⟨rfl, rfl⟩, h⟩
        · rintro ⟨m, s, ⟨rfl, rfl⟩, h⟩
          exact h
    | abortError => simp [ApiService.shouldRetry]
    | plain m => simp [ApiService.shouldRetry]
  · intro att file e hv h
    exact ⟨fun hc => ApiService.analyzeImage_retry _ att file _ e hv h hc.1 hc.2,
           fun hc => ApiService.analyzeImage_stop _ att file _ e hv h hc⟩
  · intro att e h
    exact ⟨fun hc => ApiService.generateSpeech_retry _ att _ e h hc.1 hc.2,
           fun hc => ApiService.generateSpeech_stop _ att _ e h hc⟩
  · intro att e h
    exact ⟨fun hc => ApiService.sendChatMessage_retry _ att _ e h hc.1 hc.2,
           fun hc => ApiService.sendChatMessage_stop _ att _ e h hc⟩

/-- Oracle answering 429 to every attempt (spec scenario: four
consecutive 429 responses). -/
def fourTimes429 : Nat → ApiService.FetchOutcome (Option Json) :=
  fun _ => .httpError none 429

/-- Oracle answering 404 to every attempt. -/
def once404 : Nat → ApiService.FetchOutcome (Option Json) :=
  fun _ => .httpError none 404

/-- A valid PNG upload. -/
def pngFile : ApiService.FileInfo := ⟨"image/png", 1024⟩

/-- Witness for C1: with maxRetries 3, four consecutive 429 responses
produce 4 fetches with waits 1s, 2s, 3s and then the 429 failure; a 404
response propagates at once with a single fetch. -/
theorem c1_transport_retry_policy_witness :
    ApiService.analyzeImage 3 fourTimes429 pngFile 0 =
      ⟨.error (.api "Failed to analyze image" 429), 4, [1000, 2000, 3000]⟩ ∧
    ApiService.analyzeImage 3 once404 pngFile 0 =
      ⟨.error (.api "Failed to analyze image" 404), 1, []⟩ := by
  constructor
  · have h := ((c1_transport_retry_policy (α := Json) 3 0).2.1 fourTimes429 pngFile
        (.api "Failed to analyze image" 429) rfl rfl).1 ⟨rfl, by decide⟩
    rw [h]
    simp [ApiService.analyzeImage, fourTimes429, pngFile, ApiService.validateFile,
      ApiService.analyzeAttemptBody, ApiService.shouldRetry, ApiService.retryableStatuses,
      ApiService.ALLOWED_FILE_TYPES, ApiService.MAX_FILE_SIZE, ApiService.propagate]
  · have h := ((c1_transport_retry_policy (α := Json) 3 0).2.1 once404 pngFile
        (.api "Failed to analyze image" 404) rfl rfl).2 (by decide)
    simpa [ApiService.propagate] using h

/-- C5: a timed-out (aborted) attempt of any `ApiService` operation fails
with the `Request timeout` error at once, with no retry, however many
retries remain. -/
theorem c5_timeout_terminal {α : Type} (maxRetries retryCount : Nat) :
    (∀ (att : Nat → ApiService.FetchOutcome (Option α)) (file : ApiService.FileInfo),
      ApiService.validateFile file = none → att retryCount = .abort →
      ApiService.analyzeImage maxRetries att file retryCount =
        ⟨.error (.plain "Request timeout"), 1, []⟩) ∧
    (∀ att : Nat → ApiService.FetchOutcome α, att retryCount = .abort →
      ApiService.generateSpeech maxRetries att retryCount =
        ⟨.error (.plain "Request timeout"), 1, []⟩) ∧
    (∀ att : Nat → ApiService.FetchOutcome α, att retryCount = .abort →
      ApiService.sendChatMessage maxRetries att retryCount =
        ⟨.error (.plain "Request timeout"), 1, []⟩) := by
  refine ⟨?_, ?_, ?_⟩
  · intro att file hv ha
    exact ApiService.analyzeImage_abort _ att file _ hv (by rw [ha]; rfl)
  · intro att ha
    exact ApiService.generateSpeech_abort _ att _ (by rw [ha]; rfl)
  · intro att ha
    exact ApiService.sendChatMessage_abort _ att _ (by rw [ha]; rfl)

/-- Oracle whose every attempt is aborted by the timeout. -/
def alwaysAbort : Nat → ApiService.FetchOutcome (Option Json) := fun _ => .abort

/-- Witness for C5: an aborted first attempt with three retries remaining
still fails at once with `Request timeout`. -/
theorem c5_timeout_terminal_witness :
    ApiService.analyzeImage 3 alwaysAbort pngFile 0 =
      ⟨.error (.plain "Request timeout"), 1, []⟩ :=
  (c5_timeout_terminal 3 0).1 alwaysAbort pngFile rfl rfl

/-- C2: a file whose MIME type is not JPEG/PNG/WEBP, or whose size
exceeds 5 MiB, makes `ApiService.analyzeImage` throw the specific
validation error with zero fetches and zero delays, and makes the
analyze route answer 415 resp. 413 without invoking the analyzer. -/
theorem c2_upload_validation {α : Type} (m r : Nat)
    (att : Nat → ApiService.FetchOutcome (Option α)) (file : ApiService.FileInfo)
    (runAnalyzer : ApiService.FileInfo → Except String Json) (isDev : Bool) :
    (ApiService.ALLOWED_FILE_TYPES.contains file.type = false →
      ApiService.analyzeImage m att file r =
        ⟨.error (.plain "Unsupported file type. Please upload JPEG, PNG or WebP"), 0, []⟩ ∧
      AnalyzeRoute.POST true (some file) runAnalyzer isDev =
        ⟨415, some ("File type " ++ file.type ++
           " not supported. Please upload JPEG, PNG or WebP"), none, false⟩) ∧
    (ApiService.ALLOWED_FILE_TYPES.contains file.type = true →
     ApiService.MAX_FILE_SIZE < file.size →
      ApiService.analyzeImage m att file r =
        ⟨.error (.plain "File is too large. Maximum size is 5MB"), 0, []⟩ ∧
      AnalyzeRoute.POST true (some file) runAnalyzer isDev =
        ⟨413, some "File size too large. Maximum size is 5MB", none, false⟩) := by
  constructor
  · intro hc
    have hm : file.type ∉ ApiService.ALLOWED_FILE_TYPES := by simpa using hc
    constructor
    · exact ApiService.analyzeImage_invalid m att file r _
        (by simp [ApiService.validateFile, hm])
    · simp [AnalyzeRoute.POST,
        show AnalyzeRoute.ALLOWED_FILE_TYPES = ApiService.ALLOWED_FILE_TYPES from rfl, hm]
  · intro hc hsize
    have hm : file.type ∈ ApiService.ALLOWED_FILE_TYPES := by simpa using hc
    constructor
    · exact ApiService.analyzeImage_invalid m att file r _
        (by simp [ApiService.validateFile, hm, hsize])
    · simp [AnalyzeRoute.POST,
        show AnalyzeRoute.ALLOWED_FILE_TYPES = ApiService.ALLOWED_FILE_TYPES from rfl,
        show AnalyzeRoute.MAX_FILE_SIZE = ApiService.MAX_FILE_SIZE from rfl, hm, hsize]

/-- A GIF upload (unsupported type). -/
def gifFile : ApiService.FileInfo := ⟨"image/gif", 1024⟩

/-- A 6 MiB JPEG upload (oversized). -/
def bigJpeg : ApiService.FileInfo := ⟨"image/jpeg", 6 * 1024 * 1024⟩

/-- Analyzer stand-in for route calls that never reach it. -/
def dummyAnalyzer : ApiService.FileInfo → Except String Json :=
  fun _ => .ok AiAnalyzerService.emptyResponse

/-- Witness for C2: a GIF is rejected with the type error and a 415, and
a 6 MiB JPEG with the size error and a 413, with no fetch and no
analyzer call. -/
theorem c2_upload_validation_witness :
    (ApiService.analyzeImage 3 alwaysAbort gifFile 0 =
        ⟨.error (.plain "Unsupported file type. Please upload JPEG, PNG or WebP"), 0, []⟩ ∧
      AnalyzeRoute.POST true (some gifFile) dummyAnalyzer false =
        ⟨415, some "File type image/gif not supported. Please upload JPEG, PNG or WebP",
         none, false⟩) ∧
    (ApiService.analyzeImage 3 alwaysAbort bigJpeg 0 =
        ⟨.error (.plain "File is too large. Maximum size is 5MB"), 0, []⟩ ∧
      AnalyzeRoute.POST true (some bigJpeg) dummyAnalyzer false =
        ⟨413, some "File size too large. Maximum size is 5MB", none, false⟩) := by
  constructor
  · have h := (c2_upload_validation 3 0 alwaysAbort gifFile dummyAnalyzer false).1 (by decide)
    simpa [gifFile] using h
  · exact (c2_upload_validation 3 0 alwaysAbort bigJpeg dummyAnalyzer false).2
      (by decide) (by decide)

/-- Helper: the analyzer makes at most `MAX_RETRIES - retryCount` further
calls after the first one (fuel-indexed induction on the retry budget). -/
lemma aiAnalyzeImage_attempts_le (parse : String → Option Json)
    (att : Nat → AiAnalyzerService.ProviderOutcome) :
    ∀ (fuel r : Nat), AiAnalyzerService.MAX_RETRIES - r ≤ fuel →
      (AiAnalyzerService.analyzeImage parse att r).attempts ≤ fuel + 1 := by
  intro fuel
  induction fuel with
  | zero =>
    intro r hr
    rcases hatt : AiAnalyzerService.analyzeAttempt parse (att r) with e | j
    · rw [AiAnalyzerService.aiAnalyzeImage_stop parse att r e hatt
        (fun hc => absurd hc.1 (by omega))]
    · rw [AiAnalyzerService.aiAnalyzeImage_ok parse att r j hatt]
  | succ n ih =>
    intro r hr
    rcases hatt : AiAnalyzerService.analyzeAttempt parse (att r) with e | j
    · by_cases hcond : r < AiAnalyzerService.MAX_RETRIES ∧
          AiAnalyzerService.shouldRetry e = true
      · rw [AiAnalyzerService.aiAnalyzeImage_retry parse att r e hatt hcond.1 hcond.2]
        have h2 := ih (r + 1) (by omega)
        simp only []
        omega
      · rw [AiAnalyzerService.aiAnalyzeImage_stop parse att r e hatt hcond]
        simp
    · rw [AiAnalyzerService.aiAnalyzeImage_ok parse att r j hatt]
      simp

/-- Helper: every analyzer run returns either the all-zero sentinel or a
value some provider attempt produced and every check accepted. -/
lemma aiAnalyzeImage_result_classify (parse : String → Option Json)
    (att : Nat → AiAnalyzerService.ProviderOutcome) :
    ∀ (fuel r : Nat), AiAnalyzerService.MAX_RETRIES - r ≤ fuel →
      (AiAnalyzerService.analyzeImage parse att r).result =
          AiAnalyzerService.emptyResponse ∨
      ∃ k, AiAnalyzerService.analyzeAttempt parse (att k) =
          .ok (AiAnalyzerService.analyzeImage parse att r).result := by
  intro fuel
  induction fuel with
  | zero =>
    intro r hr
    rcases hatt : AiAnalyzerService.analyzeAttempt parse (att r) with e | j
    · rw [AiAnalyzerService.aiAnalyzeImage_stop parse att r e hatt
        (fun hc => absurd hc.1 (by omega))]
      exact Or.inl rfl
    · rw [AiAnalyzerService.aiAnalyzeImage_ok parse att r j hatt]
      exact Or.inr ⟨r, hatt⟩
  | succ n ih =>
    intro r hr
    rcases hatt : AiAnalyzerService.analyzeAttempt parse (att r) with e | j
    · by_cases hcond : r < AiAnalyzerService.MAX_RETRIES ∧
          AiAnalyzerService.shouldRetry e = true
      · rw [AiAnalyzerService.aiAnalyzeImage_retry parse att r e hatt hcond.1 hcond.2]
        exact ih (r + 1) (by omega)
      · rw [AiAnalyzerService.aiAnalyzeImage_stop parse att r e hatt hcond]
        exact Or.inl rfl
    · rw [AiAnalyzerService.aiAnalyzeImage_ok parse att r j hatt]
      exact Or.inr ⟨r, hatt⟩

/-- Helper: a lookup hit is among the mapped second components. -/
lemma lookup_mem_snd {β : Type} (k : String) (v : β) :
    ∀ fields : List (String × β), fields.lookup k = some v → v ∈ fields.map Prod.snd := by
  intro fields
  induction fields with
  | nil => intro h; simp [List.lookup] at h
  | cons f fs ih =>
    intro h
    rcases f with ⟨a, b⟩
    rw [List.lookup_cons] at h
    by_cases hab : k == a
    · simp [hab] at h
      simp [h]
    · simp [hab] at h
      simp [ih h]

/-- Helper: a value the analyzer accepted has a `scores` field that
passed `areaScoreValid`. -/
lemma analyzeAttempt_ok_scores (parse : String → Option Json)
    (o : AiAnalyzerService.ProviderOutcome) (j : Json)
    (h : AiAnalyzerService.analyzeAttempt parse o = .ok j) :
    ∃ s, j.get "scores" = some s ∧ AiAnalyzerService.areaScoreValid s = true := by
  cases o with
  | throwApi st m => simp [AiAnalyzerService.analyzeAttempt] at h
  | throwOther m => simp [AiAnalyzerService.analyzeAttempt] at h
  | reply choices =>
    cases choices with
    | nil => simp [AiAnalyzerService.analyzeAttempt] at h
    | cons choice rest =>
      unfold AiAnalyzerService.analyzeAttempt at h
      repeat' split at h
      all_goals simp_all

/-- Helper: when `areaScoreValid` holds of the `scores` object, every
score present in it is a number in `[0, 100]`. -/
lemma scoreAt_range_of_valid (j s : Json) (hs : j.get "scores" = some s)
    (hvalid : AiAnalyzerService.areaScoreValid s = true) (k : String) (v : Json)
    (hk : scoreAt j k = some v) :
    ∃ q : Rat, v = .num q ∧ 0 ≤ q ∧ q ≤ 100 := by
  unfold scoreAt at hk
  rw [hs] at hk
  cases s with
  | obj fields =>
    have hmem : v ∈ fields.map Prod.snd := lookup_mem_snd k v fields hk
    have hall := List.all_eq_true.mp hvalid v (by simpa [jsObjectValues,
      AiAnalyzerService.areaScoreValid] using hmem)
    cases v with
    | num q =>
      simp at hall
      exact ⟨q, rfl, hall.1, hall.2⟩
    | null => simp at hall
    | bool b => simp at hall
    | str t => simp at hall
    | arr xs => simp at hall
    | obj fs => simp at hall
  | null => simp [Json.get] at hk
  | bool b => simp [Json.get] at hk
  | num q => simp [Json.get] at hk
  | str t => simp [Json.get] at hk
  | arr xs => simp [Json.get] at hk

/-- C3 (amended): every score value present in the `scores` object of any
value `AiAnalyzerService.analyzeImage` returns (sentinel or genuine) is a
number in `[0, 100]`; a provider response that fails JSON parsing, whose
top-level `scores` or `recommendations` field is missing (falsy), or
that contains any score value outside `[0, 100]` is turned into an
invalid-response error rather than accepted.  (The unamended claim — that
the four named scores are always present and in range — fails: the code
checks only the values present in `scores`, see the counterexample.) -/
theorem c3_score_range_amended (parse : String → Option Json)
    (att : Nat → AiAnalyzerService.ProviderOutcome) (r : Nat) :
    (∀ k v, scoreAt (AiAnalyzerService.analyzeImage parse att r).result k = some v →
        ∃ q : Rat, v = .num q ∧ 0 ≤ q ∧ q ≤ 100) ∧
    (∀ content : String, content ≠ "" →
      (parse content = none →
        AiAnalyzerService.analyzeAttempt parse (.reply [⟨none, some content⟩]) =
          .error (.plain "Invalid JSON response received")) ∧
      (∀ j, parse content = some j →
        ¬ (jsTruthy (j.get "scores") ∧ jsTruthy (j.get "recommendations")) →
        AiAnalyzerService.analyzeAttempt parse (.reply [⟨none, some content⟩]) =
          .error (.plain "Invalid JSON structure")) ∧
      (∀ j s, parse content = some j →
        jsTruthy (j.get "scores") → jsTruthy (j.get "recommendations") →
        j.get "scores" = some s → AiAnalyzerService.areaScoreValid s = false →
        AiAnalyzerService.analyzeAttempt parse (.reply [⟨none, some content⟩]) =
          .error (.plain "Scores are outside valid range (0-100)"))) := by
  constructor
  · intro k v hk
    rcases aiAnalyzeImage_result_classify parse att _ r le_rfl with hres | ⟨k2, hok⟩
    · rw [hres] at hk
      exact scoreAt_range_of_valid _ _ (by rfl) (by rfl) k v hk
    · obtain ⟨s, hs, hvalid⟩ := analyzeAttempt_ok_scores parse (att k2) _ hok
      exact scoreAt_range_of_valid _ s hs hvalid k v hk
  · intro content hne
    refine ⟨?_, ?_, ?_⟩
    · intro hparse
      simp [AiAnalyzerService.analyzeAttempt, hne, hparse]
    · intro j hparse hstruct
      simp [AiAnalyzerService.analyzeAttempt, hne, hparse, hstruct]
    · intro j s hparse hts htr hs hvalid
      simp [AiAnalyzerService.analyzeAttempt, hne, hparse, hts, htr, hs, hvalid]
      rwa [hs] at hts

/-- Content string of a provider reply whose `scores` object is empty. -/
def c3Content : String := "\x7b\"scores\":\x7b\x7d,\"recommendations\":[]\x7d"

/-- Value of `JSON.parse` on `c3Content`. -/
def c3Parsed : Json := .obj [("scores", .obj []), ("recommendations", .arr [])]

/-- Model of `JSON.parse` on the contents this trace can produce. -/
def c3Parse : String → Option Json :=
  fun s => if s = c3Content then some c3Parsed else none

/-- Provider oracle answering every call with the `c3Content` reply. -/
def c3Att : Nat → AiAnalyzerService.ProviderOutcome :=
  fun _ => .reply [⟨none, some c3Content⟩]

/-- Counterexample to C3 as stated: on a provider reply parsing to
`{"scores": {}, "recommendations": []}` (well-formed JSON, truthy fields,
vacuously valid scores), `analyzeImage` returns that value, whose
`lighting` score is absent — not a number in `[0, 100]`. -/
theorem c3_score_range_counterexample :
    (AiAnalyzerService.analyzeImage c3Parse c3Att 0).result = c3Parsed ∧
    scoreAt (AiAnalyzerService.analyzeImage c3Parse c3Att 0).result "lighting" = none ∧
    ¬ ∃ q : Rat, scoreAt (AiAnalyzerService.analyzeImage c3Parse c3Att 0).result "lighting"
        = some (.num q) ∧ 0 ≤ q ∧ q ≤ 100 := by
  have hatt : AiAnalyzerService.analyzeAttempt c3Parse (c3Att 0) = .ok c3Parsed := by
    simp [AiAnalyzerService.analyzeAttempt, c3Att, c3Parse, c3Parsed, jsTruthy,
      AiAnalyzerService.areaScoreValid, jsObjectValues, Json.get, List.lookup, c3Content]
  rw [AiAnalyzerService.aiAnalyzeImage_ok c3Parse c3Att 0 c3Parsed hatt]
  refine ⟨rfl, by simp [scoreAt, c3Parsed, Json.get], ?_⟩
  rintro ⟨q, hq, _⟩
  simp [scoreAt, c3Parsed, Json.get] at hq

/-- Provider oracle whose every call throws a non-retryable error. -/
def failOnce : Nat → AiAnalyzerService.ProviderOutcome := fun _ => .throwOther "boom"

/-- Witness for the amended C3: the sentinel returned after a failed run
has its `lighting` score in range, and an unparseable non-empty content
is turned into the invalid-JSON error. -/
theorem c3_score_range_amended_witness :
    (∃ q : Rat, Json.num 0 = .num q ∧ 0 ≤ q ∧ q ≤ 100) ∧
    AiAnalyzerService.analyzeAttempt (fun _ => none) (.reply [⟨none, some "nope"⟩]) =
      .error (.plain "Invalid JSON response received") := by
  have hrun : AiAnalyzerService.analyzeImage (fun _ => none) failOnce 0 =
      ⟨AiAnalyzerService.emptyResponse, 1, []⟩ :=
    AiAnalyzerService.aiAnalyzeImage_stop (fun _ => none) failOnce 0 (.plain "boom") rfl
      (fun hc => by simpa [AiAnalyzerService.shouldRetry] using hc.2)
  constructor
  · exact (c3_score_range_amended (fun _ => none) failOnce 0).1 "lighting" (.num 0)
      (by rw [hrun]; simp [scoreAt, AiAnalyzerService.emptyResponse, Json.get, List.lookup])
  · exact ((c3_score_range_amended (fun _ => none) failOnce 0).2 "nope" (by simp)).1 rfl

/-- C4: when the analyzer has exhausted its retries (two retryable
failures, then a third failure of any kind), it throws nothing and
returns the all-zero sentinel analysis — all four scores 0 and empty
recommendations — after waits of 500 ms and 1000 ms. -/
theorem c4_degrade_to_sentinel (parse : String → Option Json)
    (att : Nat → AiAnalyzerService.ProviderOutcome)
    (e0 e1 e2 : AiAnalyzerService.AnalyzerError)
    (h0 : AiAnalyzerService.analyzeAttempt parse (att 0) = .error e0)
    (hre0 : AiAnalyzerService.shouldRetry e0 = true)
    (h1 : AiAnalyzerService.analyzeAttempt parse (att 1) = .error e1)
    (hre1 : AiAnalyzerService.shouldRetry e1 = true)
    (h2 : AiAnalyzerService.analyzeAttempt parse (att 2) = .error e2) :
    AiAnalyzerService.analyzeImage parse att 0 =
      ⟨AiAnalyzerService.emptyResponse, 3, [500, 1000]⟩ ∧
    scoreAt AiAnalyzerService.emptyResponse "lighting" = some (.num 0) ∧
    scoreAt AiAnalyzerService.emptyResponse "space" = some (.num 0) ∧
    scoreAt AiAnalyzerService.emptyResponse "flow" = some (.num 0) ∧
    scoreAt AiAnalyzerService.emptyResponse "accessibility" = some (.num 0) ∧
    Json.get AiAnalyzerService.emptyResponse "recommendations" = some (.arr []) := by
  have s2 : AiAnalyzerService.analyzeImage parse att 2 =
      ⟨AiAnalyzerService.emptyResponse, 1, []⟩ :=
    AiAnalyzerService.aiAnalyzeImage_stop parse att 2 e2 h2
      (fun hc => absurd hc.1 (by decide))
  have s0 := AiAnalyzerService.aiAnalyzeImage_retry parse att 0 e0 h0 (by decide) hre0
  have s1 := AiAnalyzerService.aiAnalyzeImage_retry parse att 1 e1 h1 (by decide) hre1
  rw [s1, s2] at s0
  rw [s0]
  refine ⟨?_, rfl, rfl, rfl, rfl, rfl⟩
  simp [AiAnalyzerService.RETRY_DELAY]

/-- Provider oracle answering a rate-limit `APIError` to every call. -/
def c4Att : Nat → AiAnalyzerService.ProviderOutcome := fun _ => .throwApi 429 "Rate limit"

/-- Witness for C4: three consecutive 429 `APIError`s yield the sentinel
after three attempts with waits 500 ms and 1000 ms. -/
theorem c4_degrade_to_sentinel_witness :
    AiAnalyzerService.analyzeImage (fun _ => none) c4Att 0 =
      ⟨AiAnalyzerService.emptyResponse, 3, [500, 1000]⟩ :=
  (c4_degrade_to_sentinel (fun _ => none) c4Att _ _ _ rfl rfl rfl rfl rfl).1

/-- C6: the analyzer retries a failed provider call exactly when the
error is an `OpenAI.APIError` with status 429 or 500 and fewer than
`MAX_RETRIES = 2` retries were made, waiting `RETRY_DELAY * (retryCount
+ 1)` = 500 ms then 1000 ms; any other provider error is not retried,
and a run makes at most `MAX_RETRIES + 1` provider calls in total. -/
theorem c6_analyzer_retry_policy (parse : String → Option Json)
    (att : Nat → AiAnalyzerService.ProviderOutcome) (r : Nat) :
    AiAnalyzerService.MAX_RETRIES = 2 ∧
    AiAnalyzerService.RETRY_DELAY = 500 ∧
    (∀ e : AiAnalyzerService.AnalyzerError,
      AiAnalyzerService.shouldRetry e = true ↔
        ∃ status msg, e = .apiError status msg ∧ (status = 429 ∨ status = 500)) ∧
    (∀ e, AiAnalyzerService.analyzeAttempt parse (att r) = .error e →
      (r < AiAnalyzerService.MAX_RETRIES ∧ AiAnalyzerService.shouldRetry e = true →
        AiAnalyzerService.analyzeImage parse att r =
          ⟨(AiAnalyzerService.analyzeImage parse att (r + 1)).result,
           (AiAnalyzerService.analyzeImage parse att (r + 1)).attempts + 1,
           AiAnalyzerService.RETRY_DELAY * (r + 1) ::
             (AiAnalyzerService.analyzeImage parse att (r + 1)).delays⟩) ∧
      (¬ (r < AiAnalyzerService.MAX_RETRIES ∧ AiAnalyzerService.shouldRetry e = true) →
        AiAnalyzerService.analyzeImage parse att r =
          ⟨AiAnalyzerService.emptyResponse, 1, []⟩)) ∧
    (AiAnalyzerService.analyzeImage parse att r).attempts ≤
      (AiAnalyzerService.MAX_RETRIES - r) + 1 := by
  refine ⟨rfl, rfl, ?_, ?_, aiAnalyzeImage_attempts_le parse att _ r le_rfl⟩
  · intro e
    cases e with
    | apiError status msg =>
        simp only [AiAnalyzerService.shouldRetry]
        simp
    | plain m => simp [AiAnalyzerService.shouldRetry]
  · intro e he
    exact ⟨fun hc => AiAnalyzerService.aiAnalyzeImage_retry parse att r e he hc.1 hc.2,
           fun hc => AiAnalyzerService.aiAnalyzeImage_stop parse att r e he hc⟩

/-- Witness for C6: a 429 `APIError` on the first call is retried with a
500 ms wait. -/
theorem c6_analyzer_retry_policy_witness :
    AiAnalyzerService.analyzeImage (fun _ => none) c4Att 0 =
      ⟨(AiAnalyzerService.analyzeImage (fun _ => none) c4Att 1).result,
       (AiAnalyzerService.analyzeImage (fun _ => none) c4Att 1).attempts + 1,
       500 * (0 + 1) :: (AiAnalyzerService.analyzeImage (fun _ => none) c4Att 1).delays⟩ := by
  have h := ((c6_analyzer_retry_policy (fun _ => none) c4Att 0).2.2.2.1
      (.apiError 429 "Rate limit") rfl).1 ⟨by decide, rfl⟩
  simpa [AiAnalyzerService.RETRY_DELAY] using h

/-- C10: `AiAnalyzerService.analyzeImage` never propagates an error (the
model is a total function into `AnalyzerRun`): every run returns either
the all-zero sentinel — the same value as for "not a floor plan" — or a
value that some provider attempt produced and every response check
accepted, so any provider failure is indistinguishable from the
not-a-floor-plan sentinel. -/
theorem c10_analyzer_never_throws (parse : String → Option Json)
    (att : Nat → AiAnalyzerService.ProviderOutcome) (r : Nat) :
    (AiAnalyzerService.analyzeImage parse att r).result =
        AiAnalyzerService.emptyResponse ∨
    ∃ k, AiAnalyzerService.analyzeAttempt parse (att k) =
        .ok (AiAnalyzerService.analyzeImage parse att r).result :=
  aiAnalyzeImage_result_classify parse att _ r le_rfl
